import Mathlib

/-!
Shallow embedding of `src/kivy/uix/splitter.py` (the `Splitter` widget and its
`SplitterStrip` drag handle).

Modelling conventions:
- lengths, coordinates and touch deltas are rationals (`ℚ`);
- a Kivy `size_hint` component is `Option ℚ`; Python truthiness of such a
  value (`None` and `0` are falsy) is the `truthy` predicate below;
- Python object identity (`is`, `is not`) is modelled by a numeric widget id
  (`wid`); `touch.grab_current` holds the id of the capture owner, `none`
  standing for Python `None`;
- the surrounding toolkit (layout and touch dispatch) is external to the
  repository: size-hint propagation is modelled synchronously (assigning a
  size-hint fraction immediately realizes `fraction * parent extent` on that
  axis), `collide_point` is the toolkit's inclusive bounds test, and
  `touch.grab`/`touch.ungrab` set/clear the capture owner;
- the `bind`/`unbind` calls for `strip_size` and the touch events have no
  effect on the state observed by any theorem below and are not modelled;
- a handler that raises `ZeroDivisionError` (division by a zero parent
  extent) is a distinguished result constructor;
- Python's `list.insert` (used by the toolkit's `add_widget`) clamps the
  index to the list length; `pyInsert` reproduces that.
-/

set_option autoImplicit false

namespace Kivy

/-- The four values of the `sizable_from` option property
(`splitter.py` lines 55-56). -/
inductive SizableFrom
  | left
  | right
  | top
  | bottom
deriving DecidableEq, Repr

/-- Orientation of the underlying `BoxLayout`. -/
inductive Orientation
  | horizontal
  | vertical
deriving DecidableEq, Repr

/-- A touch event: position, incremental deltas since the previous move, and
the id of the widget currently owning the gesture's capture (`grab_current`,
`none` for Python `None`). -/
structure Touch where
  x : ℚ
  y : ℚ
  dx : ℚ
  dy : ℚ
  grab_current : Option ℕ
deriving DecidableEq, Repr

/-- A plain child widget (the managed panel or the strip): identity, size
hints and realized size. -/
structure Widget where
  wid : ℕ
  size_hint_x : Option ℚ
  size_hint_y : Option ℚ
  width : ℚ
  height : ℚ
deriving DecidableEq, Repr

/-- State of a `Splitter` instance: its configuration properties
(`sizable_from`, `strip_size`, `min_size`, `max_size`), the private
`_container` and `_strip` references, the ordered child list of the
underlying container (widget ids), the splitter's own geometry
(size hints, realized size, position, parent extents), its own identity
`wid`, and a fresh-id counter `nextId` used when `strip_cls()` allocates a
new strip object. -/
structure Splitter where
  wid : ℕ
  sizable_from : SizableFrom
  strip_size : ℚ
  min_size : ℚ
  max_size : ℚ
  orientation : Orientation
  container : Option Widget
  strip : Option Widget
  children : List ℕ
  size_hint_x : Option ℚ
  size_hint_y : Option ℚ
  width : ℚ
  height : ℚ
  x : ℚ
  y : ℚ
  parent_width : ℚ
  parent_height : ℚ
  nextId : ℕ
deriving DecidableEq, Repr

/-- Python truthiness of a size-hint component: `None` and `0` are falsy. -/
def truthy : Option ℚ → Bool
  | none => false
  | some v => decide (v ≠ 0)

/-- Python `list.insert`: inserts at position `i`, clamping `i` to the list
length (an index past the end appends). -/
def pyInsert {α : Type} (l : List α) (i : ℕ) (a : α) : List α :=
  l.take i ++ a :: l.drop i

/-- The toolkit's `Widget.collide_point` for the splitter's own bounds:
`self.x <= x <= self.right and self.y <= y <= self.top` (inclusive). -/
def Splitter.collide_point (s : Splitter) (px py : ℚ) : Bool :=
  decide (s.x ≤ px ∧ px ≤ s.x + s.width ∧ s.y ≤ py ∧ py ≤ s.y + s.height)

/-- Result of `strip_move`: the handler returned `False` (capture check
failed, event unhandled), completed normally with an updated splitter state,
or raised `ZeroDivisionError` dividing by a zero parent extent. -/
inductive MoveResult
  | unhandled
  | handled (s : Splitter)
  | zeroDivisionError
deriving DecidableEq, Repr

/-- Extract the state of a `handled` result, with a default otherwise. -/
def MoveResult.stateD : MoveResult → Splitter → Splitter
  | .handled s, _ => s
  | _, d => d

/-- The clamp of `splitter.py` lines 176-180: re-read `self.height` after the
update and pull it back into `[min_size, max_size]` (size only; the bounds
are never written). -/
def clampHeight (s : Splitter) (min_size max_size : ℚ) : Splitter :=
  let height := s.height
  if height > max_size then { s with height := max_size }
  else if height < min_size then { s with height := min_size }
  else s

/-- The clamp of `splitter.py` lines 194-198, the horizontal mirror of
`clampHeight`. -/
def clampWidth (s : Splitter) (min_size max_size : ℚ) : Splitter :=
  let width := s.width
  if width > max_size then { s with width := max_size }
  else if width < min_size then { s with width := min_size }
  else s

/-- `Splitter.strip_move` (`splitter.py` lines 156-198), the handler bound to
the strip's `on_touch_move`. Returns `False` unless `touch.grab_current is
self._strip`. Otherwise, on the axis selected by `sizable_from` and with
`sign = -1` for `bottom`/`left` and `+1` for `top`/`right`: in fixed mode
(falsy size hint) adds `sign * delta` to the size when it is positive and
snaps it to `1` otherwise; in stretch mode adds `sign * (delta / parent
extent)` to the size-hint fraction (raising `ZeroDivisionError` when the
parent extent is zero), the new fraction realizing synchronously; finally
clamps the realized size into `[min_size, max_size]`. -/
def Splitter.strip_move (s : Splitter) (touch : Touch) : MoveResult :=
  if touch.grab_current ≠ s.strip.map Widget.wid then .unhandled
  else
    let max_size := s.max_size
    let min_size := s.min_size
    match s.sizable_from with
    | .top | .bottom =>
      let diff_y := touch.dy
      let sign : ℚ := if s.sizable_from = .bottom then -1 else 1
      if truthy s.size_hint_y = false then
        let s1 :=
          if s.height > 0 then { s with height := s.height + sign * diff_y }
          else { s with height := 1 }
        .handled (clampHeight s1 min_size max_size)
      else
        if s.parent_height = 0 then .zeroDivisionError
        else
          let diff := diff_y / s.parent_height
          let v := s.size_hint_y.getD 0
          let s1 := { s with size_hint_y := some (v + sign * diff),
                             height := (v + sign * diff) * s.parent_height }
          .handled (clampHeight s1 min_size max_size)
    | .left | .right =>
      let diff_x := touch.dx
      let sign : ℚ := if s.sizable_from = .left then -1 else 1
      if truthy s.size_hint_x = false then
        let s1 :=
          if s.width > 0 then { s with width := s.width + sign * diff_x }
          else { s with width := 1 }
        .handled (clampWidth s1 min_size max_size)
      else
        if s.parent_width = 0 then .zeroDivisionError
        else
          let diff := diff_x / s.parent_width
          let v := s.size_hint_x.getD 0
          let s1 := { s with size_hint_x := some (v + sign * diff),
                             width := (v + sign * diff) * s.parent_width }
          .handled (clampWidth s1 min_size max_size)

/-- `Splitter.strip_up` (`splitter.py` lines 150-154), the handler bound to
the strip's `on_touch_up`. Returns `False` (modelled `none`) when the touch
position is outside the splitter's bounds; otherwise grabs the touch for the
splitter (`touch.grab(self)`), returning the touch with its capture owner
set. The splitter's own state is never written. -/
def Splitter.strip_up (s : Splitter) (touch : Touch) : Option Touch :=
  if ¬ s.collide_point touch.x touch.y then none
  else some { touch with grab_current := some s.wid }

/-- `Splitter.strip_down` (`splitter.py` lines 200-203), the handler bound to
the strip's `on_touch_down`. Returns unhandled (modelled `none`) unless
`touch.grab_current is self`; otherwise ungrabs the touch
(`touch.ungrab(self)`), clearing its capture owner. The splitter's own state
is never written. -/
def Splitter.strip_down (s : Splitter) (touch : Touch) : Option Touch :=
  if touch.grab_current ≠ some s.wid then none
  else some { touch with grab_current := none }

/-- `Splitter.on_sizable_from` (`splitter.py` lines 90-124). Returns
unchanged when no managed panel is attached. Otherwise: if a strip exists it
is removed from the child list (and reused), else a fresh strip is allocated
from `strip_cls()` (Kivy widget defaults: size hints `(1, 1)`, size
`100×100`); its axis is configured from `sizable_from` (fixed width
`strip_size` for `left`/`right`, fixed height and orientation forced to
`vertical` for `top`/`bottom`); it is inserted at child index 0 for
`right`/`bottom` and 1 otherwise. -/
def Splitter.on_sizable_from (s : Splitter) : Splitter :=
  if s.container.isNone then s
  else
    let pair : Widget × Splitter :=
      match s.strip with
      | some w => (w, { s with children := s.children.erase w.wid })
      | none =>
        let w : Widget :=
          { wid := s.nextId, size_hint_x := some 1, size_hint_y := some 1,
            width := 100, height := 100 }
        (w, { s with nextId := s.nextId + 1 })
    let strp := pair.1
    let s1 := pair.2
    match s.sizable_from with
    | .left | .right =>
      let strp1 :=
        { strp with size_hint_x := none, size_hint_y := some 1,
                    width := s.strip_size }
      let index : ℕ := if s.sizable_from = .right then 0 else 1
      { s1 with strip := some strp1,
                children := pyInsert s1.children index strp1.wid }
    | .top | .bottom =>
      let strp1 :=
        { strp with size_hint_x := some 1, size_hint_y := none,
                    height := s.strip_size }
      let index : ℕ := if s.sizable_from = .bottom then 0 else 1
      { s1 with orientation := .vertical,
                strip := some strp1,
                children := pyInsert s1.children index strp1.wid }

/-- Result of `add_widget`: `exn s` models the source *returning* an
`Exception('Splitter accepts only one Widget')` object with the splitter in
state `s` at that point; `ok s` is a completed insertion. -/
inductive AddResult
  | exn (s : Splitter)
  | ok (s : Splitter)
deriving DecidableEq, Repr

/-- State carried by an `AddResult`, whichever constructor. -/
def AddResult.stateOf : AddResult → Splitter
  | .exn s => s
  | .ok s => s

/-- `Splitter.add_widget` (`splitter.py` lines 126-140). Fails (returns an
`Exception` object, mutating nothing) when a managed panel is already
present or the argument is falsy (`None`). Otherwise stores the widget as
`_container`, sets its size hint to 1 on the resize axis, overwrites the
caller's `index` with 0 (1 for `right`/`bottom`), delegates to the
container's insertion, and re-runs `on_sizable_from`. -/
def Splitter.add_widget (s : Splitter) (widget : Option Widget) (index : ℕ) :
    AddResult :=
  match s.container, widget with
  | some _, _ => .exn s
  | none, none => .exn s
  | none, some w =>
    let _ := index
    let w1 :=
      match s.sizable_from with
      | .left | .right => { w with size_hint_x := some 1 }
      | .top | .bottom => { w with size_hint_y := some 1 }
    let index1 : ℕ :=
      match s.sizable_from with
      | .right | .bottom => 1
      | .left | .top => 0
    let s1 := { s with container := some w1,
                       children := pyInsert s.children index1 w1.wid }
    .ok s1.on_sizable_from

/-- `Splitter.remove_widget` (`splitter.py` lines 142-145): the container's
native removal (erase from the child list when present), then clear
`_container` when the removed widget is the managed panel (`==` on Kivy
widgets is identity, modelled by `wid`). -/
def Splitter.remove_widget (s : Splitter) (widget : Option Widget) : Splitter :=
  let s1 :=
    match widget with
    | none => s
    | some w => { s with children := s.children.erase w.wid }
  if widget.map Widget.wid = s.container.map Widget.wid then
    { s1 with container := none }
  else s1

/-- `Splitter.clear_widgets` (`splitter.py` lines 147-148). -/
def Splitter.clear_widgets (s : Splitter) : Splitter :=
  s.remove_widget s.container

/-- Assignment to the `sizable_from` option property: the property system
stores the new value, then dispatches `on_sizable_from`. -/
def Splitter.set_sizable_from (s : Splitter) (e : SizableFrom) : Splitter :=
  Splitter.on_sizable_from { s with sizable_from := e }

/-- The splitter's realized size on the resize axis selected by
`sizable_from`: height for `top`/`bottom`, width for `left`/`right`. -/
def Splitter.sizeOnAxis (s : Splitter) : ℚ :=
  match s.sizable_from with
  | .top | .bottom => s.height
  | .left | .right => s.width

/-- Enum facts used to discharge the direction tests inside the handlers. -/
theorem szrl : SizableFrom.right ≠ SizableFrom.left := by decide

theorem szlr : SizableFrom.left ≠ SizableFrom.right := by decide

theorem sztb : SizableFrom.top ≠ SizableFrom.bottom := by decide

theorem szbt : SizableFrom.bottom ≠ SizableFrom.top := by decide

/-- Fields of the splitter other than `width` are untouched by the
horizontal clamp. -/
theorem clampWidth_sizable_from (s : Splitter) (a b : ℚ) :
    (clampWidth s a b).sizable_from = s.sizable_from := by
  unfold clampWidth
  dsimp only
  split_ifs <;> rfl

theorem clampWidth_min_size (s : Splitter) (a b : ℚ) :
    (clampWidth s a b).min_size = s.min_size := by
  unfold clampWidth
  dsimp only
  split_ifs <;> rfl

theorem clampWidth_max_size (s : Splitter) (a b : ℚ) :
    (clampWidth s a b).max_size = s.max_size := by
  unfold clampWidth
  dsimp only
  split_ifs <;> rfl

theorem clampWidth_size_hint_x (s : Splitter) (a b : ℚ) :
    (clampWidth s a b).size_hint_x = s.size_hint_x := by
  unfold clampWidth
  dsimp only
  split_ifs <;> rfl

/-- Fields of the splitter other than `height` are untouched by the
vertical clamp. -/
theorem clampHeight_sizable_from (s : Splitter) (a b : ℚ) :
    (clampHeight s a b).sizable_from = s.sizable_from := by
  unfold clampHeight
  dsimp only
  split_ifs <;> rfl

theorem clampHeight_min_size (s : Splitter) (a b : ℚ) :
    (clampHeight s a b).min_size = s.min_size := by
  unfold clampHeight
  dsimp only
  split_ifs <;> rfl

theorem clampHeight_max_size (s : Splitter) (a b : ℚ) :
    (clampHeight s a b).max_size = s.max_size := by
  unfold clampHeight
  dsimp only
  split_ifs <;> rfl

/-- When the bounds are ordered, the horizontal clamp lands in them. -/
theorem clampWidth_width_bounds (s : Splitter) (a b : ℚ) (hab : a ≤ b) :
    a ≤ (clampWidth s a b).width ∧ (clampWidth s a b).width ≤ b := by
  unfold clampWidth
  dsimp only
  split_ifs with h1 h2 <;> constructor <;> (try dsimp only) <;> linarith

/-- When the bounds are ordered, the vertical clamp lands in them. -/
theorem clampHeight_height_bounds (s : Splitter) (a b : ℚ) (hab : a ≤ b) :
    a ≤ (clampHeight s a b).height ∧ (clampHeight s a b).height ≤ b := by
  unfold clampHeight
  dsimp only
  split_ifs with h1 h2 <;> constructor <;> (try dsimp only) <;> linarith

/-- The active-axis size is the width for the horizontal edges. -/
theorem sizeOnAxis_eq_width (s : Splitter)
    (h : s.sizable_from = .left ∨ s.sizable_from = .right) :
    s.sizeOnAxis = s.width := by
  unfold Splitter.sizeOnAxis
  rcases h with h | h <;> rw [h]

/-- The active-axis size is the height for the vertical edges. -/
theorem sizeOnAxis_eq_height (s : Splitter)
    (h : s.sizable_from = .top ∨ s.sizable_from = .bottom) :
    s.sizeOnAxis = s.height := by
  unfold Splitter.sizeOnAxis
  rcases h with h | h <;> rw [h]

/-- Bundled postcondition of the horizontal clamp, ready for each terminal
branch of `strip_move`: provided the intermediate state agrees with the
original on the configuration fields and the edge is horizontal, the clamp
result is in bounds on the active axis and keeps the bounds themselves. -/
theorem clampWidth_post (s0 s1 : Splitter)
    (hfrom : s1.sizable_from = s0.sizable_from)
    (hmin : s1.min_size = s0.min_size) (hmax : s1.max_size = s0.max_size)
    (hLR : s0.sizable_from = .left ∨ s0.sizable_from = .right)
    (hab : s0.min_size ≤ s0.max_size) :
    s0.min_size ≤ (clampWidth s1 s0.min_size s0.max_size).sizeOnAxis ∧
      (clampWidth s1 s0.min_size s0.max_size).sizeOnAxis ≤ s0.max_size ∧
      (clampWidth s1 s0.min_size s0.max_size).min_size = s0.min_size ∧
      (clampWidth s1 s0.min_size s0.max_size).max_size = s0.max_size := by
  have hax : (clampWidth s1 s0.min_size s0.max_size).sizeOnAxis
      = (clampWidth s1 s0.min_size s0.max_size).width := by
    apply sizeOnAxis_eq_width
    rw [clampWidth_sizable_from, hfrom]
    exact hLR
  rw [hax]
  obtain ⟨h1, h2⟩ := clampWidth_width_bounds s1 s0.min_size s0.max_size hab
  exact ⟨h1, h2, by rw [clampWidth_min_size, hmin], by rw [clampWidth_max_size, hmax]⟩

/-- Bundled postcondition of the vertical clamp, mirror of `clampWidth_post`. -/
theorem clampHeight_post (s0 s1 : Splitter)
    (hfrom : s1.sizable_from = s0.sizable_from)
    (hmin : s1.min_size = s0.min_size) (hmax : s1.max_size = s0.max_size)
    (hTB : s0.sizable_from = .top ∨ s0.sizable_from = .bottom)
    (hab : s0.min_size ≤ s0.max_size) :
    s0.min_size ≤ (clampHeight s1 s0.min_size s0.max_size).sizeOnAxis ∧
      (clampHeight s1 s0.min_size s0.max_size).sizeOnAxis ≤ s0.max_size ∧
      (clampHeight s1 s0.min_size s0.max_size).min_size = s0.min_size ∧
      (clampHeight s1 s0.min_size s0.max_size).max_size = s0.max_size := by
  have hax : (clampHeight s1 s0.min_size s0.max_size).sizeOnAxis
      = (clampHeight s1 s0.min_size s0.max_size).height := by
    apply sizeOnAxis_eq_height
    rw [clampHeight_sizable_from, hfrom]
    exact hTB
  rw [hax]
  obtain ⟨h1, h2⟩ := clampHeight_height_bounds s1 s0.min_size s0.max_size hab
  exact ⟨h1, h2, by rw [clampHeight_min_size, hmin], by rw [clampHeight_max_size, hmax]⟩

/-- C1: for every handled drag-move (one whose capture check passes and that
completes), assuming `min_size ≤ max_size`, the splitter's size on the
active resize axis (height for `top`/`bottom`, width for `left`/`right`)
lies in `[min_size, max_size]` after the handler returns, and the clamp
adjusted only the size: `min_size` and `max_size` are unchanged. -/
theorem strip_move_clamps_size (s : Splitter) (t : Touch) (s' : Splitter)
    (hmm : s.min_size ≤ s.max_size) (h : s.strip_move t = .handled s') :
    s.min_size ≤ s'.sizeOnAxis ∧ s'.sizeOnAxis ≤ s.max_size ∧
      s'.min_size = s.min_size ∧ s'.max_size = s.max_size := by
  simp only [Splitter.strip_move] at h
  split at h
  · exact MoveResult.noConfusion h
  · rcases hsf : s.sizable_from with _ | _ | _ | _ <;> rw [hsf] at h <;>
      simp only [] at h
    case left =>
      split at h
      · injection h with h
        subst h
        exact clampWidth_post s _ (by split <;> simp [hsf]) (by split <;> rfl)
          (by split <;> rfl) (Or.inl hsf) hmm
      · split at h
        · exact MoveResult.noConfusion h
        · injection h with h
          subst h
          exact clampWidth_post s _ (by simp [hsf]) rfl rfl (Or.inl hsf) hmm
    case right =>
      split at h
      · injection h with h
        subst h
        exact clampWidth_post s _ (by split <;> simp [hsf]) (by split <;> rfl)
          (by split <;> rfl) (Or.inr hsf) hmm
      · split at h
        · exact MoveResult.noConfusion h
        · injection h with h
          subst h
          exact clampWidth_post s _ (by simp [hsf]) rfl rfl (Or.inr hsf) hmm
    case top =>
      split at h
      · injection h with h
        subst h
        exact clampHeight_post s _ (by split <;> simp [hsf]) (by split <;> rfl)
          (by split <;> rfl) (Or.inl hsf) hmm
      · split at h
        · exact MoveResult.noConfusion h
        · injection h with h
          subst h
          exact clampHeight_post s _ (by simp [hsf]) rfl rfl (Or.inl hsf) hmm
    case bottom =>
      split at h
      · injection h with h
        subst h
        exact clampHeight_post s _ (by split <;> simp [hsf]) (by split <;> rfl)
          (by split <;> rfl) (Or.inr hsf) hmm
      · split at h
        · exact MoveResult.noConfusion h
        · injection h with h
          subst h
          exact clampHeight_post s _ (by simp [hsf]) rfl rfl (Or.inr hsf) hmm

/-- A managed panel used by the concrete instances below. -/
def panelW : Widget :=
  { wid := 2, size_hint_x := some 1, size_hint_y := some 1, width := 100,
    height := 100 }

/-- A strip widget (already configured for a `right` splitter). -/
def stripW : Widget :=
  { wid := 1, size_hint_x := none, size_hint_y := some 1, width := 10,
    height := 100 }

/-- A fully built splitter: `sizable_from = right`, fixed width 150, bounds
`[100, 500]`, panel and strip attached, inside a 1000×800 parent. -/
def base : Splitter :=
  { wid := 0, sizable_from := .right, strip_size := 10, min_size := 100,
    max_size := 500, orientation := .horizontal, container := some panelW,
    strip := some stripW, children := [1, 2], size_hint_x := none,
    size_hint_y := some 1, width := 150, height := 100, x := 0, y := 0,
    parent_width := 1000, parent_height := 800, nextId := 3 }

/-- A move touch captured by the strip, `dx = 10`. -/
def touchR : Touch := { x := 5, y := 5, dx := 10, dy := 0, grab_current := some 1 }

/-- `base` after the `dx = 10` move: width grew to 160, inside the bounds. -/
def baseMoved : Splitter := { base with width := 160 }

/-- Witness for C1 at `base` and `touchR`: the hypotheses hold there and the
clamped invariant follows. -/
theorem strip_move_clamps_size_witness :
    base.min_size ≤ base.max_size ∧
      (base.min_size ≤ baseMoved.sizeOnAxis ∧
        baseMoved.sizeOnAxis ≤ base.max_size ∧
        baseMoved.min_size = base.min_size ∧
        baseMoved.max_size = base.max_size) :=
  ⟨by norm_num [base],
    strip_move_clamps_size base touchR baseMoved (by norm_num [base])
      (by norm_num [Splitter.strip_move, clampWidth, truthy, base, baseMoved,
        stripW, panelW, touchR, szrl])⟩

/-- A pointer-down touch inside the splitter's bounds, no capture owner. -/
def touchDown0 : Touch := { x := 5, y := 5, dx := 0, dy := 0, grab_current := none }

/-- C2: evaluation of the pointer-down handler (`strip_down`, bound to
`on_touch_down`) at a touch inside the splitter's bounds with no capture
owner: the handler ignores the event and performs no grab, although the
claim requires it to capture the gesture. (The source's `strip_down` body is
an up-handler: it checks the capture owner and ungrabs.) -/
theorem strip_down_eval :
    base.collide_point touchDown0.x touchDown0.y = true ∧
      base.strip_down touchDown0 = none := by
  constructor
  · norm_num [Splitter.collide_point, base, touchDown0]
  · norm_num [Splitter.strip_down, base, touchDown0]
    exact fun h => nomatch h

/-- A pointer-up touch inside the bounds whose capture owner is the
splitter itself. -/
def touchUpOwned : Touch := { x := 5, y := 5, dx := 0, dy := 0, grab_current := some 0 }

/-- A pointer-up touch outside the bounds whose capture owner is the
splitter itself. -/
def touchUpOwnedFar : Touch :=
  { x := 999, y := 999, dx := 0, dy := 0, grab_current := some 0 }

/-- C3: evaluation of the pointer-up handler (`strip_up`, bound to
`on_touch_up`) at touches whose capture owner is this splitter: in bounds it
re-grabs for the splitter (capture owner stays `some 0`, never released);
out of bounds it ignores the event (again no release). The claim requires
the capture to be released in both situations. (The source's `strip_up`
body is a down-handler: it hit-tests and grabs.) -/
theorem strip_up_eval :
    touchUpOwned.grab_current = some base.wid ∧
      base.strip_up touchUpOwned = some touchUpOwned ∧
      touchUpOwnedFar.grab_current = some base.wid ∧
      base.strip_up touchUpOwnedFar = none := by
  refine ⟨rfl, ?_, rfl, ?_⟩
  · norm_num [Splitter.strip_up, Splitter.collide_point, base, touchUpOwned]
  · norm_num [Splitter.strip_up, Splitter.collide_point, base, touchUpOwnedFar]

/-- The horizontal clamp is the identity on `width` when the width is
already inside the bounds. -/
theorem clampWidth_width_of_le (s : Splitter) (a b : ℚ)
    (h1 : s.width ≤ b) (h2 : a ≤ s.width) :
    (clampWidth s a b).width = s.width := by
  unfold clampWidth
  dsimp only
  rw [if_neg (not_lt.mpr h1), if_neg (not_lt.mpr h2)]

/-- The vertical clamp is the identity on `height` when the height is
already inside the bounds. -/
theorem clampHeight_height_of_le (s : Splitter) (a b : ℚ)
    (h1 : s.height ≤ b) (h2 : a ≤ s.height) :
    (clampHeight s a b).height = s.height := by
  unfold clampHeight
  dsimp only
  rw [if_neg (not_lt.mpr h1), if_neg (not_lt.mpr h2)]

/-- The horizontal clamp caps `width` at `b` when the width exceeds it. -/
theorem clampWidth_width_of_gt (s : Splitter) (a b : ℚ) (h : b < s.width) :
    (clampWidth s a b).width = b := by
  unfold clampWidth
  dsimp only
  rw [if_pos h]

/-- A move whose capture check fails is unhandled. -/
theorem strip_move_grab_fail (s : Splitter) (t : Touch)
    (hg : t.grab_current ≠ s.strip.map Widget.wid) :
    s.strip_move t = .unhandled := by
  unfold Splitter.strip_move
  rw [if_pos hg]

/-- A handled move passed the capture check. -/
theorem strip_move_grab_of_handled (s : Splitter) (t : Touch) (s' : Splitter)
    (h : s.strip_move t = .handled s') :
    t.grab_current = s.strip.map Widget.wid := by
  by_contra hg
  rw [strip_move_grab_fail s t hg] at h
  exact MoveResult.noConfusion h

/-- Reduction of `strip_move` for `sizable_from = right` (sign `+1`,
horizontal axis) once the capture check passes. -/
theorem strip_move_right_eq (s : Splitter) (t : Touch)
    (hsf : s.sizable_from = .right)
    (hg : t.grab_current = s.strip.map Widget.wid) :
    s.strip_move t =
      (if truthy s.size_hint_x = false then
        .handled (clampWidth
          (if s.width > 0 then { s with width := s.width + t.dx }
            else { s with width := 1 }) s.min_size s.max_size)
      else if s.parent_width = 0 then .zeroDivisionError
      else
        .handled (clampWidth
          { s with
              size_hint_x := some (s.size_hint_x.getD 0 + t.dx / s.parent_width),
              width := (s.size_hint_x.getD 0 + t.dx / s.parent_width)
                * s.parent_width } s.min_size s.max_size)) := by
  simp [Splitter.strip_move, hg, hsf, szrl]

/-- Reduction of `strip_move` for `sizable_from = left` (sign `-1`,
horizontal axis) once the capture check passes. -/
theorem strip_move_left_eq (s : Splitter) (t : Touch)
    (hsf : s.sizable_from = .left)
    (hg : t.grab_current = s.strip.map Widget.wid) :
    s.strip_move t =
      (if truthy s.size_hint_x = false then
        .handled (clampWidth
          (if s.width > 0 then { s with width := s.width + -1 * t.dx }
            else { s with width := 1 }) s.min_size s.max_size)
      else if s.parent_width = 0 then .zeroDivisionError
      else
        .handled (clampWidth
          { s with
              size_hint_x := some (s.size_hint_x.getD 0 + -1 * (t.dx / s.parent_width)),
              width := (s.size_hint_x.getD 0 + -1 * (t.dx / s.parent_width))
                * s.parent_width } s.min_size s.max_size)) := by
  simp [Splitter.strip_move, hg, hsf]

/-- Reduction of `strip_move` for `sizable_from = top` (sign `+1`, vertical
axis) once the capture check passes. -/
theorem strip_move_top_eq (s : Splitter) (t : Touch)
    (hsf : s.sizable_from = .top)
    (hg : t.grab_current = s.strip.map Widget.wid) :
    s.strip_move t =
      (if truthy s.size_hint_y = false then
        .handled (clampHeight
          (if s.height > 0 then { s with height := s.height + t.dy }
            else { s with height := 1 }) s.min_size s.max_size)
      else if s.parent_height = 0 then .zeroDivisionError
      else
        .handled (clampHeight
          { s with
              size_hint_y := some (s.size_hint_y.getD 0 + t.dy / s.parent_height),
              height := (s.size_hint_y.getD 0 + t.dy / s.parent_height)
                * s.parent_height } s.min_size s.max_size)) := by
  simp [Splitter.strip_move, hg, hsf, sztb]

/-- Reduction of `strip_move` for `sizable_from = bottom` (sign `-1`,
vertical axis) once the capture check passes. -/
theorem strip_move_bottom_eq (s : Splitter) (t : Touch)
    (hsf : s.sizable_from = .bottom)
    (hg : t.grab_current = s.strip.map Widget.wid) :
    s.strip_move t =
      (if truthy s.size_hint_y = false then
        .handled (clampHeight
          (if s.height > 0 then { s with height := s.height + -1 * t.dy }
            else { s with height := 1 }) s.min_size s.max_size)
      else if s.parent_height = 0 then .zeroDivisionError
      else
        .handled (clampHeight
          { s with
              size_hint_y := some (s.size_hint_y.getD 0 + -1 * (t.dy / s.parent_height)),
              height := (s.size_hint_y.getD 0 + -1 * (t.dy / s.parent_height))
                * s.parent_height } s.min_size s.max_size)) := by
  simp [Splitter.strip_move, hg, hsf]

/-- C4: for a handled move in fixed-size mode with a positive size and a
non-binding clamp, a positive `dx` strictly increases the width for
`sizable_from = right` and strictly decreases it for `left`; symmetrically a
positive `dy` increases the height for `top` and decreases it for `bottom`
(sign `+1` for `right`/`top`, `-1` for `left`/`bottom`). -/
theorem strip_move_sign (s : Splitter) (t : Touch) (s' : Splitter) :
    (s.sizable_from = .right → truthy s.size_hint_x = false → 0 < s.width →
      s.min_size ≤ s.width + t.dx → s.width + t.dx ≤ s.max_size →
      s.strip_move t = .handled s' → 0 < t.dx → s.width < s'.width) ∧
    (s.sizable_from = .left → truthy s.size_hint_x = false → 0 < s.width →
      s.min_size ≤ s.width - t.dx → s.width - t.dx ≤ s.max_size →
      s.strip_move t = .handled s' → 0 < t.dx → s'.width < s.width) ∧
    (s.sizable_from = .top → truthy s.size_hint_y = false → 0 < s.height →
      s.min_size ≤ s.height + t.dy → s.height + t.dy ≤ s.max_size →
      s.strip_move t = .handled s' → 0 < t.dy → s.height < s'.height) ∧
    (s.sizable_from = .bottom → truthy s.size_hint_y = false → 0 < s.height →
      s.min_size ≤ s.height - t.dy → s.height - t.dy ≤ s.max_size →
      s.strip_move t = .handled s' → 0 < t.dy → s'.height < s.height) := by
  refine ⟨?_, ?_, ?_, ?_⟩
  · intro hsf ht hw hlo hhi h hdx
    rw [strip_move_right_eq s t hsf (strip_move_grab_of_handled s t s' h),
      if_pos ht, if_pos hw] at h
    injection h with h
    subst h
    rw [clampWidth_width_of_le _ _ _ hhi hlo]
    show s.width < s.width + t.dx
    linarith
  · intro hsf ht hw hlo hhi h hdx
    rw [strip_move_left_eq s t hsf (strip_move_grab_of_handled s t s' h),
      if_pos ht, if_pos hw] at h
    injection h with h
    subst h
    have hb : ({ s with width := s.width + -1 * t.dx } : Splitter).width
        ≤ s.max_size := by
      show s.width + -1 * t.dx ≤ s.max_size
      linarith
    have ha : s.min_size
        ≤ ({ s with width := s.width + -1 * t.dx } : Splitter).width := by
      show s.min_size ≤ s.width + -1 * t.dx
      linarith
    rw [clampWidth_width_of_le _ _ _ hb ha]
    show s.width + -1 * t.dx < s.width
    linarith
  · intro hsf ht hw hlo hhi h hdy
    rw [strip_move_top_eq s t hsf (strip_move_grab_of_handled s t s' h),
      if_pos ht, if_pos hw] at h
    injection h with h
    subst h
    rw [clampHeight_height_of_le _ _ _ hhi hlo]
    show s.height < s.height + t.dy
    linarith
  · intro hsf ht hw hlo hhi h hdy
    rw [strip_move_bottom_eq s t hsf (strip_move_grab_of_handled s t s' h),
      if_pos ht, if_pos hw] at h
    injection h with h
    subst h
    have hb : ({ s with height := s.height + -1 * t.dy } : Splitter).height
        ≤ s.max_size := by
      show s.height + -1 * t.dy ≤ s.max_size
      linarith
    have ha : s.min_size
        ≤ ({ s with height := s.height + -1 * t.dy } : Splitter).height := by
      show s.min_size ≤ s.height + -1 * t.dy
      linarith
    rw [clampHeight_height_of_le _ _ _ hb ha]
    show s.height + -1 * t.dy < s.height
    linarith

/-- Witness for C4 at `base` and `touchR` (`right`, fixed width 150,
`dx = 10`, clamp not binding): the width strictly grows. -/
theorem strip_move_sign_witness : base.width < baseMoved.width :=
  (strip_move_sign base touchR baseMoved).1 rfl rfl (by norm_num [base])
    (by norm_num [base, touchR]) (by norm_num [base, touchR])
    (by norm_num [Splitter.strip_move, clampWidth, truthy, base, baseMoved,
      stripW, panelW, touchR, szrl])
    (by norm_num [touchR])

/-- The arithmetic of the clamp of lines 176-180/194-198 as a plain
function: pull `x` back into `[a, b]`, first capping at `b`, then raising to
`a`. -/
def clampVal (x a b : ℚ) : ℚ :=
  if x > b then b else if x < a then a else x

/-- The width after the horizontal clamp is `clampVal` of the width. -/
theorem clampWidth_width_eq (s : Splitter) (a b : ℚ) :
    (clampWidth s a b).width = clampVal s.width a b := by
  unfold clampWidth clampVal
  dsimp only
  split_ifs <;> rfl

/-- The height after the vertical clamp is `clampVal` of the height. -/
theorem clampHeight_height_eq (s : Splitter) (a b : ℚ) :
    (clampHeight s a b).height = clampVal s.height a b := by
  unfold clampHeight clampVal
  dsimp only
  split_ifs <;> rfl

/-- The vertical clamp does not touch `size_hint_y`. -/
theorem clampHeight_size_hint_y (s : Splitter) (a b : ℚ) :
    (clampHeight s a b).size_hint_y = s.size_hint_y := by
  unfold clampHeight
  dsimp only
  split_ifs <;> rfl

/-- C5: for every handled move in stretch mode on the active axis (either
axis), the handler adds `sign * (delta / parent extent)` to the size-hint
fraction — not to the absolute size — the parent extent is necessarily
nonzero, and the realized pixel size (new fraction times parent extent) is
then clamped into `[min_size, max_size]`. -/
theorem strip_move_stretch (s : Splitter) (t : Touch) (s' : Splitter) (v : ℚ) :
    ((s.sizable_from = .left ∨ s.sizable_from = .right) →
      s.size_hint_x = some v → v ≠ 0 →
      s.strip_move t = .handled s' →
      s.parent_width ≠ 0 ∧
        s'.size_hint_x = some (v +
          (if s.sizable_from = .left then -1 else 1) * (t.dx / s.parent_width)) ∧
        s'.width = clampVal
          ((v + (if s.sizable_from = .left then -1 else 1) * (t.dx / s.parent_width))
            * s.parent_width) s.min_size s.max_size) ∧
    ((s.sizable_from = .top ∨ s.sizable_from = .bottom) →
      s.size_hint_y = some v → v ≠ 0 →
      s.strip_move t = .handled s' →
      s.parent_height ≠ 0 ∧
        s'.size_hint_y = some (v +
          (if s.sizable_from = .bottom then -1 else 1) * (t.dy / s.parent_height)) ∧
        s'.height = clampVal
          ((v + (if s.sizable_from = .bottom then -1 else 1) * (t.dy / s.parent_height))
            * s.parent_height) s.min_size s.max_size) := by
  constructor
  · intro hLR hv hv0 h
    have hg := strip_move_grab_of_handled s t s' h
    have ht : ¬ (truthy s.size_hint_x = false) := by
      rw [hv]
      unfold truthy
      simp [hv0]
    rcases hLR with hsf | hsf
    · rw [strip_move_left_eq s t hsf hg, if_neg ht] at h
      split at h
      · exact MoveResult.noConfusion h
      · next hp =>
        injection h with h
        subst h
        refine ⟨hp, ?_, ?_⟩
        · rw [clampWidth_size_hint_x]
          show some (s.size_hint_x.getD 0 + -1 * (t.dx / s.parent_width)) = _
          rw [hv, if_pos hsf]
          rfl
        · rw [clampWidth_width_eq]
          show clampVal ((s.size_hint_x.getD 0 + -1 * (t.dx / s.parent_width))
            * s.parent_width) s.min_size s.max_size = _
          rw [hv, if_pos hsf]
          rfl
    · rw [strip_move_right_eq s t hsf hg, if_neg ht] at h
      split at h
      · exact MoveResult.noConfusion h
      · next hp =>
        injection h with h
        subst h
        refine ⟨hp, ?_, ?_⟩
        · rw [clampWidth_size_hint_x]
          show some (s.size_hint_x.getD 0 + t.dx / s.parent_width) = _
          rw [hv, hsf, if_neg szrl, one_mul]
          rfl
        · rw [clampWidth_width_eq]
          show clampVal ((s.size_hint_x.getD 0 + t.dx / s.parent_width)
            * s.parent_width) s.min_size s.max_size = _
          rw [hv, hsf, if_neg szrl, one_mul]
          rfl
  · intro hTB hv hv0 h
    have hg := strip_move_grab_of_handled s t s' h
    have ht : ¬ (truthy s.size_hint_y = false) := by
      rw [hv]
      unfold truthy
      simp [hv0]
    rcases hTB with hsf | hsf
    · rw [strip_move_top_eq s t hsf hg, if_neg ht] at h
      split at h
      · exact MoveResult.noConfusion h
      · next hp =>
        injection h with h
        subst h
        refine ⟨hp, ?_, ?_⟩
        · rw [clampHeight_size_hint_y]
          show some (s.size_hint_y.getD 0 + t.dy / s.parent_height) = _
          rw [hv, hsf, if_neg sztb, one_mul]
          rfl
        · rw [clampHeight_height_eq]
          show clampVal ((s.size_hint_y.getD 0 + t.dy / s.parent_height)
            * s.parent_height) s.min_size s.max_size = _
          rw [hv, hsf, if_neg sztb, one_mul]
          rfl
    · rw [strip_move_bottom_eq s t hsf hg, if_neg ht] at h
      split at h
      · exact MoveResult.noConfusion h
      · next hp =>
        injection h with h
        subst h
        refine ⟨hp, ?_, ?_⟩
        · rw [clampHeight_size_hint_y]
          show some (s.size_hint_y.getD 0 + -1 * (t.dy / s.parent_height)) = _
          rw [hv, if_pos hsf]
          rfl
        · rw [clampHeight_height_eq]
          show clampVal ((s.size_hint_y.getD 0 + -1 * (t.dy / s.parent_height))
            * s.parent_height) s.min_size s.max_size = _
          rw [hv, if_pos hsf]
          rfl

/-- The move of the C5 scenario: `dx = 200`, captured by the strip. -/
def touchR200 : Touch :=
  { x := 5, y := 5, dx := 200, dy := 0, grab_current := some 1 }

/-- The C5 scenario splitter: `min_size = 100`, `max_size = 250`,
`sizable_from = right`, stretch hint `3/20` realizing width 150 inside a
parent of width 1000. -/
def sC5 : Splitter :=
  { base with max_size := 250, size_hint_x := some (3/20) }

/-- The C5 scenario after the move: hint grew by `1/5` to `7/20`, and the
realized width 350 was clamped to 250. -/
def sC5moved : Splitter :=
  { sC5 with size_hint_x := some (7/20), width := 250 }

/-- Witness for C5 at the scenario of the claim: the hint gains
`200/1000 = 1/5`, ending at `7/20`, and the realized width 350 clamps to
the final width 250. -/
theorem strip_move_stretch_witness :
    (sC5.parent_width ≠ 0 ∧
      sC5moved.size_hint_x = some ((3/20 : ℚ) +
        (if sC5.sizable_from = .left then -1 else 1)
          * (touchR200.dx / sC5.parent_width)) ∧
      sC5moved.width = clampVal
        (((3/20 : ℚ) + (if sC5.sizable_from = .left then -1 else 1)
          * (touchR200.dx / sC5.parent_width)) * sC5.parent_width)
        sC5.min_size sC5.max_size) ∧
      sC5moved.size_hint_x = some (7/20) ∧ sC5moved.width = 250 :=
  ⟨(strip_move_stretch sC5 touchR200 sC5moved (3/20)).1 (Or.inr rfl) rfl
      (by norm_num)
      (by norm_num [Splitter.strip_move, clampWidth, truthy, sC5, base,
        sC5moved, stripW, panelW, touchR200, szrl]),
    rfl, rfl⟩

/-- C6: for every handled move in fixed-size mode whose size on the active
axis (either axis) is not positive, the handler snaps that size to 1 (the
delta is not applied on this event) before the clamp, so the final size is
the clamp of 1 — never 0 as long as `max_size` is positive. -/
theorem strip_move_snap (s : Splitter) (t : Touch) (s' : Splitter) :
    ((s.sizable_from = .left ∨ s.sizable_from = .right) →
      truthy s.size_hint_x = false → s.width ≤ 0 →
      s.strip_move t = .handled s' →
      s'.width = (if (1:ℚ) > s.max_size then s.max_size
        else if (1:ℚ) < s.min_size then s.min_size else 1) ∧
        (0 < s.max_size → 0 < s'.width)) ∧
    ((s.sizable_from = .top ∨ s.sizable_from = .bottom) →
      truthy s.size_hint_y = false → s.height ≤ 0 →
      s.strip_move t = .handled s' →
      s'.height = (if (1:ℚ) > s.max_size then s.max_size
        else if (1:ℚ) < s.min_size then s.min_size else 1) ∧
        (0 < s.max_size → 0 < s'.height)) := by
  constructor
  · intro hLR ht hw h
    have hg := strip_move_grab_of_handled s t s' h
    have hw' : ¬ (s.width > 0) := not_lt.mpr hw
    have key : ∀ s'' : Splitter,
        s'' = clampWidth { s with width := 1 } s.min_size s.max_size →
        s''.width = (if (1:ℚ) > s.max_size then s.max_size
          else if (1:ℚ) < s.min_size then s.min_size else 1) ∧
          (0 < s.max_size → 0 < s''.width) := by
      intro s'' hs''
      subst hs''
      have hf : (clampWidth { s with width := 1 } s.min_size s.max_size).width
          = (if (1:ℚ) > s.max_size then s.max_size
              else if (1:ℚ) < s.min_size then s.min_size else 1) := by
        unfold clampWidth
        dsimp only
        split_ifs <;> rfl
      refine ⟨hf, ?_⟩
      intro hmax
      rw [hf]
      split_ifs <;> linarith
    rcases hLR with hsf | hsf
    · rw [strip_move_left_eq s t hsf hg, if_pos ht, if_neg hw'] at h
      injection h with h
      exact key s' h.symm
    · rw [strip_move_right_eq s t hsf hg, if_pos ht, if_neg hw'] at h
      injection h with h
      exact key s' h.symm
  · intro hTB ht hw h
    have hg := strip_move_grab_of_handled s t s' h
    have hw' : ¬ (s.height > 0) := not_lt.mpr hw
    have key : ∀ s'' : Splitter,
        s'' = clampHeight { s with height := 1 } s.min_size s.max_size →
        s''.height = (if (1:ℚ) > s.max_size then s.max_size
          else if (1:ℚ) < s.min_size then s.min_size else 1) ∧
          (0 < s.max_size → 0 < s''.height) := by
      intro s'' hs''
      subst hs''
      have hf : (clampHeight { s with height := 1 } s.min_size s.max_size).height
          = (if (1:ℚ) > s.max_size then s.max_size
              else if (1:ℚ) < s.min_size then s.min_size else 1) := by
        unfold clampHeight
        dsimp only
        split_ifs <;> rfl
      refine ⟨hf, ?_⟩
      intro hmax
      rw [hf]
      split_ifs <;> linarith
    rcases hTB with hsf | hsf
    · rw [strip_move_top_eq s t hsf hg, if_pos ht, if_neg hw'] at h
      injection h with h
      exact key s' h.symm
    · rw [strip_move_bottom_eq s t hsf hg, if_pos ht, if_neg hw'] at h
      injection h with h
      exact key s' h.symm

/-- The C6 scenario splitter: `sizable_from = left`, fixed mode, width 0. -/
def sC6 : Splitter := { base with sizable_from := .left, width := 0 }

/-- The move of the C6 scenario: `dx = 5`, captured by the strip. -/
def touchL5 : Touch := { x := 5, y := 5, dx := 5, dy := 0, grab_current := some 1 }

/-- The C6 scenario after the move: the width was snapped to 1 and then
clamped up to `min_size = 100`. -/
def sC6moved : Splitter := { sC6 with width := 100 }

/-- Witness for C6 at the scenario of the claim: width 0 does not remain 0;
it is snapped to 1 and ends at the clamp of 1. -/
theorem strip_move_snap_witness :
    (sC6moved.width = (if (1:ℚ) > sC6.max_size then sC6.max_size
        else if (1:ℚ) < sC6.min_size then sC6.min_size else 1) ∧
      (0 < sC6.max_size → 0 < sC6moved.width)) ∧
      sC6moved.width = 100 :=
  ⟨(strip_move_snap sC6 touchL5 sC6moved).1 (Or.inl rfl) rfl
      (by norm_num [sC6, base])
      (by norm_num [Splitter.strip_move, clampWidth, truthy, sC6, base,
        sC6moved, stripW, panelW, touchL5]),
    rfl⟩

/-- The C10 splitter: stretch hint on the horizontal axis inside a parent of
width zero. -/
def sC10 : Splitter := { base with size_hint_x := some (3/20), parent_width := 0 }

/-- C10: in stretch mode the handler divides the delta by the parent extent
with no guard: a handled (normally completed) move implies the parent
extent on the active axis is nonzero, and with a zero parent extent the
`ZeroDivisionError` branch is reached (shown at a concrete input). -/
theorem strip_move_div_guard (s : Splitter) (t : Touch) (s' : Splitter) :
    ((s.sizable_from = .left ∨ s.sizable_from = .right) →
      truthy s.size_hint_x = true →
      s.strip_move t = .handled s' → s.parent_width ≠ 0) ∧
    ((s.sizable_from = .top ∨ s.sizable_from = .bottom) →
      truthy s.size_hint_y = true →
      s.strip_move t = .handled s' → s.parent_height ≠ 0) ∧
    sC10.strip_move touchR200 = .zeroDivisionError := by
  refine ⟨?_, ?_, ?_⟩
  · intro hLR ht h hp
    have hg := strip_move_grab_of_handled s t s' h
    have ht' : ¬ (truthy s.size_hint_x = false) := by
      rw [ht]
      decide
    rcases hLR with hsf | hsf
    · rw [strip_move_left_eq s t hsf hg, if_neg ht', if_pos hp] at h
      exact MoveResult.noConfusion h
    · rw [strip_move_right_eq s t hsf hg, if_neg ht', if_pos hp] at h
      exact MoveResult.noConfusion h
  · intro hTB ht h hp
    have hg := strip_move_grab_of_handled s t s' h
    have ht' : ¬ (truthy s.size_hint_y = false) := by
      rw [ht]
      decide
    rcases hTB with hsf | hsf
    · rw [strip_move_top_eq s t hsf hg, if_neg ht', if_pos hp] at h
      exact MoveResult.noConfusion h
    · rw [strip_move_bottom_eq s t hsf hg, if_neg ht', if_pos hp] at h
      exact MoveResult.noConfusion h
  · norm_num [Splitter.strip_move, truthy, sC10, base, stripW, panelW, touchR200]

/-- Witness for C10: at the C5 stretch scenario (parent width 1000) the
handled move lets the theorem conclude the parent width is nonzero. -/
theorem strip_move_div_guard_witness : sC5.parent_width ≠ 0 :=
  (strip_move_div_guard sC5 touchR200 sC5moved).1 (Or.inr rfl)
    (by norm_num [truthy, sC5, base])
    (by norm_num [Splitter.strip_move, clampWidth, truthy, sC5, base,
      sC5moved, stripW, panelW, touchR200, szrl])

/-- C7: `add_widget` with a panel already present, or with a falsy widget
argument, returns the `Exception` and mutates nothing: the managed-panel
reference, the child list and the first child are exactly as before. -/
theorem add_widget_rejects (s : Splitter) (w : Option Widget) (i : ℕ)
    (hbad : s.container.isSome = true ∨ w = none) :
    s.add_widget w i = .exn s ∧
      (s.add_widget w i).stateOf.container = s.container ∧
      (s.add_widget w i).stateOf.children = s.children ∧
      (s.add_widget w i).stateOf.children.head? = s.children.head? := by
  have hmain : s.add_widget w i = .exn s := by
    rcases hc : s.container with _ | c
    · rcases hw : w with _ | ww
      · unfold Splitter.add_widget
        rw [hc]
      · rcases hbad with hb | hb
        · rw [hc] at hb
          exact Bool.noConfusion hb
        · rw [hw] at hb
          exact Option.noConfusion hb
    · unfold Splitter.add_widget
      rw [hc]
  rw [hmain]
  exact ⟨rfl, rfl, rfl, rfl⟩

/-- Witness for C7: a second `add_widget` on `base` (whose panel is already
attached) fails and leaves the state untouched. -/
theorem add_widget_rejects_witness :
    (base.container.isSome = true ∨ (some panelW : Option Widget) = none) ∧
      (base.add_widget (some panelW) 0 = .exn base ∧
        (base.add_widget (some panelW) 0).stateOf.container = base.container ∧
        (base.add_widget (some panelW) 0).stateOf.children = base.children ∧
        (base.add_widget (some panelW) 0).stateOf.children.head?
          = base.children.head?) :=
  ⟨Or.inl rfl, add_widget_rejects base (some panelW) 0 (Or.inl rfl)⟩

/-- C8 counterexample: on `base` (panel attached, strip object id 1),
changing `sizable_from` to `bottom` keeps the very same strip object (id 1
before and after) — the strip is detached and re-inserted, not destroyed
and rebuilt — and the managed panel is not modified at all (in particular
its size-hint axis is not flipped). -/
theorem set_sizable_from_strip_reused_eval :
    base.container.isSome = true ∧
      (base.set_sizable_from .bottom).strip.map Widget.wid
        = base.strip.map Widget.wid ∧
      (base.set_sizable_from .bottom).container = base.container := by
  refine ⟨rfl, ?_, ?_⟩ <;>
    norm_num [Splitter.set_sizable_from, Splitter.on_sizable_from, pyInsert,
      base, stripW, panelW]

/-- C8 amended: on every change of `sizable_from` with a managed panel and a
strip present, the same strip object is kept (reconfigured and re-inserted;
a new strip is built only when none exists yet), and the managed panel
persists unmodified — `on_sizable_from` does not touch its size hints. -/
theorem set_sizable_from_reuses_strip (s : Splitter) (e : SizableFrom)
    (w c : Widget) (hc : s.container = some c) (hs : s.strip = some w) :
    (s.set_sizable_from e).strip.map Widget.wid = some w.wid ∧
      (s.set_sizable_from e).container = s.container := by
  cases e <;>
    simp [Splitter.set_sizable_from, Splitter.on_sizable_from, hc, hs, pyInsert]

/-- Witness for C8 (amended) at `base` with edge `top`: the strip keeps id 1
and the panel reference is unchanged. -/
theorem set_sizable_from_reuses_strip_witness :
    (base.set_sizable_from .top).strip.map Widget.wid = some stripW.wid ∧
      (base.set_sizable_from .top).container = base.container :=
  set_sizable_from_reuses_strip base .top stripW panelW rfl rfl

/-- C9: the caller-supplied index of `add_widget` has no effect, and a
successful insertion places the managed panel at the child index determined
solely by `sizable_from`: 0 for `left`/`top`, 1 for `right`/`bottom`. -/
theorem add_widget_ignores_index (s : Splitter) (w : Widget) (i j : ℕ) :
    s.add_widget (some w) i = s.add_widget (some w) j ∧
      (s.container = none →
        s.add_widget (some w) i =
          .ok (Splitter.on_sizable_from
            { s with
                container := some
                  (match s.sizable_from with
                    | .left | .right => { w with size_hint_x := some 1 }
                    | .top | .bottom => { w with size_hint_y := some 1 }),
                children := pyInsert s.children
                  (match s.sizable_from with
                    | .right | .bottom => 1
                    | .left | .top => 0) w.wid })) := by
  constructor
  · rcases hc : s.container with _ | c <;>
      unfold Splitter.add_widget <;> rw [hc]
  · intro hc
    unfold Splitter.add_widget
    rw [hc]
    rcases hsf : s.sizable_from with _ | _ | _ | _ <;> rfl

/-- An empty splitter (no panel, no strip, no children) used to exercise a
successful `add_widget`. -/
def empt : Splitter :=
  { base with container := none, strip := none, children := [] }

/-- A fresh panel widget with id 7. -/
def wNew : Widget := { panelW with wid := 7 }

/-- Witness for C9 at the empty splitter: indices 99 and 0 give identical
results, and the panel is inserted at the index derived from
`sizable_from`. -/
theorem add_widget_ignores_index_witness :
    empt.add_widget (some wNew) 99 = empt.add_widget (some wNew) 0 ∧
      empt.add_widget (some wNew) 99 =
        .ok (Splitter.on_sizable_from
          { empt with
              container := some
                (match empt.sizable_from with
                  | .left | .right => { wNew with size_hint_x := some 1 }
                  | .top | .bottom => { wNew with size_hint_y := some 1 }),
              children := pyInsert empt.children
                (match empt.sizable_from with
                  | .right | .bottom => 1
                  | .left | .top => 0) wNew.wid }) :=
  ⟨(add_widget_ignores_index empt wNew 99 0).1,
    (add_widget_ignores_index empt wNew 99 0).2 rfl⟩

end Kivy
